import Mathlib

/-!
Verification development for the dhcpkit looking glass transaction-logging
pipeline.  The definitions below are a shallow embedding of the Python
sources: `dhcpkit_looking_glass/dhcpkit/database_writer.py` (the sqlite
writer process), `dhcpkit_looking_glass/option_handler.py` (the producer
side with its bounded queue), `dhcpkit_looking_glass/app_settings.py`
(retention configuration) and
`dhcpkit_looking_glass/management/commands/process_kafka.py` (the Django
persistence path with client/transaction tables and retention).
-/

namespace LookingGlass

/-- A Python byte: an integer in `0 ≤ b < 256`. -/
abbrev Byte := Fin 256

/-- One lowercase hexadecimal digit, as produced by `codecs.encode(_, 'hex')`:
digits `0`-`9` are code points 48-57, digits `a`-`f` are code points 97-102. -/
def hexDigit (n : Nat) : Char :=
  if n < 10 then Char.ofNat (48 + n) else Char.ofNat (87 + n)

/-- The two lowercase hex digits of one byte, high nibble first. -/
def hexByte (b : Byte) : List Char :=
  [hexDigit (b.val / 16), hexDigit (b.val % 16)]

/-- `codecs.encode(bs, 'hex').decode('ascii')`: lowercase hex of a byte string. -/
def hexEncode (bs : List Byte) : String :=
  ⟨bs.flatMap hexByte⟩

/-- `bytes.decode('ascii')` succeeds exactly when every byte is below 128. -/
def isAscii (bs : List Byte) : Bool :=
  bs.all (fun b => b.val < 128)

/-- The string produced by a successful `bytes.decode('ascii')`. -/
def asciiDecode (bs : List Byte) : String :=
  ⟨bs.map (fun b => Char.ofNat b.val)⟩

/-- The rendering of an interface-id: ASCII text when the bytes decode as
ASCII, otherwise `'0x' + hex` (database_writer.py, `get_identifiers`). -/
def renderInterfaceId : Option (List Byte) → String
  | none => ""
  | some bs => if isAscii bs then asciiDecode bs else "0x" ++ hexEncode bs

/-- The rendering of a remote-id: `'{enterprise}:{ascii}'` when the bytes
decode as ASCII, otherwise `'{enterprise}:0x{hex}'`
(database_writer.py, `get_identifiers`). -/
def renderRemoteId : Option (Nat × List Byte) → String
  | none => ""
  | some (ent, bs) =>
      if isAscii bs then toString ent ++ ":" ++ asciiDecode bs
      else toString ent ++ ":0x" ++ hexEncode bs

/-- The `'0x' + hex` representation of the serialized DUID
(`'0x' + codecs.encode(duid_obj.save(), 'hex').decode('ascii')`). -/
def duidRepr (bs : List Byte) : String :=
  "0x" ++ hexEncode bs

/-- The inbound request of a transaction bundle as relevant here: the
serialized DUID bytes of its `ClientIdOption` (`none` when the option is
absent, in which case `get_option_of_type` returns `None` and `.duid`
raises `AttributeError`), the class name of the message, and its JSON
serialization. -/
structure Request where
  clientDuid : Option (List Byte)
  className : String
  json : String
  deriving DecidableEq, Repr

/-- The relay message closest to the client
(`bundle.incoming_relay_messages[0]`): its peer address and its optional
interface-id / remote-id options. -/
structure RelayMsg where
  peerAddress : String
  interfaceId : Option (List Byte)
  remoteId : Option (Nat × List Byte)
  deriving DecidableEq, Repr

/-- The slice of a `TransactionBundle` the writer reads. -/
structure Bundle where
  request : Request
  relay0 : RelayMsg
  responseClassName : String
  responseJson : String
  deriving DecidableEq, Repr

/-- The identifier dictionary returned by `get_identifiers`. -/
structure Identifiers where
  duid : String
  interface_id : String
  remote_id : String
  link_local : String
  deriving DecidableEq, Repr

/-- A Python exception escaping the modelled code. -/
inductive PyErr where
  /-- `AttributeError`, raised by `.duid` on `None`. -/
  | attributeError
  deriving DecidableEq, Repr

/-- `DatabaseProcess.get_identifiers` (database_writer.py): extract the DUID
(required: raises `AttributeError` when the `ClientIdOption` is missing), the
client's link-local address and the ASCII-or-hex renderings of the relay's
interface-id and remote-id options. -/
def get_identifiers (b : Bundle) : Except PyErr Identifiers :=
  match b.request.clientDuid with
  | none => .error .attributeError
  | some duidBytes =>
      .ok { duid := duidRepr duidBytes
            interface_id := renderInterfaceId b.relay0.interfaceId
            remote_id := renderRemoteId b.relay0.remoteId
            link_local := b.relay0.peerAddress }

example : renderInterfaceId (some [0xDE, 0xAD, 0xBE, 0xEF]) = "0xdeadbeef" := by decide
example : renderInterfaceId (some [101, 116, 104, 48]) = "eth0" := by decide
example : renderRemoteId (some (9, [0xDE, 0xAD])) = "9:0xdead" := by decide

/-- A log line emitted through the `logging` module. -/
inductive LogLevel where
  | debug | info | warning | error
  deriving DecidableEq, Repr

/-- A logged message with its level. -/
structure LogEntry where
  level : LogLevel
  text : String
  deriving DecidableEq, Repr

/-- One row of the writer's sqlite `clients` table.  Identity columns are
`NOT NULL` with `UNIQUE(duid, interface_id, remote_id)`; the request and
response columns start out `NULL`. -/
structure ClientRow where
  duid : String
  interface_id : String
  remote_id : String
  last_request_type : Option String := none
  last_request : Option String := none
  last_request_ll : Option String := none
  last_request_ts : Option String := none
  last_response_type : Option String := none
  last_response : Option String := none
  last_response_ts : Option String := none
  deriving DecidableEq, Repr

/-- The `WHERE duid=? AND interface_id=? AND remote_id=?` match. -/
def sameIdentity (i : Identifiers) (r : ClientRow) : Bool :=
  r.duid = i.duid && r.interface_id = i.interface_id && r.remote_id = i.remote_id

/-- `INSERT OR IGNORE INTO clients(duid, interface_id, remote_id) VALUES (?, ?, ?)`:
a no-op when a row with the unique identity triple exists, otherwise a new row
with all other columns `NULL`. -/
def insertOrIgnoreClient (i : Identifiers) (tbl : List ClientRow) : List ClientRow :=
  if tbl.any (sameIdentity i) then tbl
  else tbl ++ [{ duid := i.duid, interface_id := i.interface_id, remote_id := i.remote_id }]

/-- `message_type = message_type[:-7] if message_type.endswith('Message')`:
drop the last 7 characters when the name ends in `Message`. -/
def stripMessageSuffix (s : String) : String :=
  if "Message".data.isSuffixOf s.data then ⟨s.data.take (s.data.length - 7)⟩ else s

/-- The `UPDATE clients SET last_request_type=?, last_request=?,
last_request_ll=?, last_request_ts=CURRENT_TIMESTAMP WHERE identity` write. -/
def updateClientRequest (i : Identifiers) (msgType reqJson now : String)
    (tbl : List ClientRow) : List ClientRow :=
  tbl.map fun r =>
    if sameIdentity i r then
      { r with last_request_type := some msgType, last_request := some reqJson,
               last_request_ll := some i.link_local, last_request_ts := some now }
    else r

/-- The `UPDATE clients SET last_response_type=?, last_response=?,
last_response_ts=CURRENT_TIMESTAMP WHERE identity` write. -/
def updateClientResponse (i : Identifiers) (msgType respJson now : String)
    (tbl : List ClientRow) : List ClientRow :=
  tbl.map fun r =>
    if sameIdentity i r then
      { r with last_response_type := some msgType, last_response := some respJson,
               last_response_ts := some now }
    else r

/-- Storage-error injection for one unit of work: whether the client `INSERT`
and the request/response `UPDATE` raise `sqlite3.DatabaseError`. -/
structure FailSpec where
  insertRaises : Bool := false
  updateRaises : Bool := false
  deriving DecidableEq, Repr

/-- `DatabaseProcess.process_item` (database_writer.py).  Runs on the
connection's uncommitted table state.  `get_identifiers` may raise
`AttributeError`, which is not an `sqlite3.DatabaseError` and therefore
propagates out of the two `except sqlite3.DatabaseError: return` blocks;
a `DatabaseError` from the `INSERT` is caught and the function returns with
nothing written; a `DatabaseError` from the `UPDATE` is caught and the
function returns with the `INSERT` already applied. -/
def process_item (fail : FailSpec) (stage : String) (b : Bundle) (now : String)
    (tbl : List ClientRow) : Except PyErr (List ClientRow) :=
  match get_identifiers b with
  | .error e => .error e
  | .ok ids =>
      if fail.insertRaises then .ok tbl
      else
        let tbl1 := insertOrIgnoreClient ids tbl
        if stage = "pre" then
          if fail.updateRaises then .ok tbl1
          else .ok (updateClientRequest ids (stripMessageSuffix b.request.className)
                      b.request.json now tbl1)
        else if stage = "post" then
          if fail.updateRaises then .ok tbl1
          else .ok (updateClientResponse ids (stripMessageSuffix b.responseClassName)
                      b.responseJson now tbl1)
        else .ok tbl1

/-- The writer's sqlite connection: the durably committed table and the
connection's current (uncommitted) view.  `commit` publishes the current
view, `rollback` restores the committed one. -/
structure Db where
  committed : List ClientRow
  current : List ClientRow
  deriving DecidableEq, Repr

/-- A dequeued `(stage, event)` work item, together with the wall clock value
used for `CURRENT_TIMESTAMP` and the storage errors the environment injects
while it is processed. -/
structure QueueItem where
  stage : String
  bundle : Bundle
  now : String := ""
  fail : FailSpec := {}
  deriving DecidableEq, Repr

/-- The body of the worker loop for one dequeued item (database_writer.py,
`run`): `process_item` then `commit` on normal return, and on any escaping
exception the bare `except:` block runs `db.rollback()` — emitting no log
entry — and the loop continues. -/
def runStep (it : QueueItem) (db : Db) : Db × List LogEntry :=
  match process_item it.fail it.stage it.bundle it.now db.current with
  | .ok tbl => ({ committed := tbl, current := tbl }, [])
  | .error _ => ({ committed := db.committed, current := db.committed }, [])

/-- `DatabaseProcess.run`'s drain loop over the dequeued items (`none` is the
shutdown sentinel): returns the final connection state, the items actually
processed in order, and the log produced.  On dequeuing the sentinel the loop
breaks without processing it. -/
def runLoop : List (Option QueueItem) → Db → Db × List QueueItem × List LogEntry
  | [], db => (db, [], [])
  | none :: _, db => (db, [], [])
  | some it :: rest, db =>
      let st := runStep it db
      let res := runLoop rest st.1
      (res.1, it :: res.2.1, st.2 ++ res.2.2)

/-- `ctx.Queue(maxsize=1000)`: the channel's fixed capacity. -/
def queueCapacity : Nat := 1000

/-- `queue.put(item, block=False)`: raises `queue.Full` (modelled as
`.error ()`) when the queue already holds `maxsize` items, otherwise appends
the item at the back. -/
def put_nowait (q : List (Option QueueItem)) (x : Option QueueItem) :
    Except Unit (List (Option QueueItem)) :=
  if queueCapacity ≤ q.length then .error () else .ok (q ++ [x])

/-- `LookingGlassOptionHandler.pre` / `.post` (option_handler.py): enqueue
`(stage, bundle)` without blocking; when the queue is full the `Full`
exception is caught and a warning is logged, the queue is left unchanged,
and nothing propagates to the caller. -/
def handlerEnqueue (stage : String) (b : Bundle)
    (q : List (Option QueueItem)) : List (Option QueueItem) × List LogEntry :=
  match put_nowait q (some { stage := stage, bundle := b }) with
  | .ok q2 => (q2, [])
  | .error _ =>
      (q, [⟨.warning, "Not logging transaction in LookingGlass: queue is full"⟩])

namespace Kafka

/-- A row of the Django `Client` model: surrogate primary key plus the
identifier triple, which is `unique_together`. -/
structure Client where
  pk : Nat
  duid : String
  interface_id : String
  remote_id : String
  deriving DecidableEq, Repr

/-- A row of the Django `Server` model (`name` is unique). -/
structure Server where
  pk : Nat
  name : String
  deriving DecidableEq, Repr

/-- A row of the Django `Transaction` model; `client`/`server` hold the
foreign-key pks and `(client, server, request_ts)` is `unique_together`. -/
structure Transaction where
  pk : Nat
  client : Nat
  server : Nat
  request_ts : Int
  request_type : Option String
  request : String
  request_ll : String
  response_type : Option String
  response : String
  response_ts : Int
  deriving DecidableEq, Repr

/-- The inbound DHCP message of a Kafka record, reduced to the fields the
command reads: the serialized DUID bytes of its `ClientIdOption` (absent
when the option is missing, in which case `.duid` raises `AttributeError`),
the innermost relay's interface-id / remote-id options and peer address, the
message class name and the JSON serialization. -/
structure InMsg where
  duid : Option (List Byte)
  interfaceId : Option (List Byte)
  remoteId : Option (Nat × List Byte)
  peerAddress : String
  className : String
  json : String
  deriving DecidableEq, Repr

/-- The outbound message after unwrapping relay replies: whether the result
is a `ClientServerMessage`, its class name and JSON serialization. -/
structure OutMsg where
  isClientServer : Bool
  className : String
  json : String
  deriving DecidableEq, Repr

/-- A `DHCPKafkaMessage` as consumed by `process_message`. -/
structure KafkaMsg where
  server_name : String
  message_in : Option InMsg
  message_out : Option OutMsg
  timestamp_in : Int
  timestamp_out : Int
  deriving DecidableEq, Repr

/-- The dictionary returned by `Command.get_transaction_info`. -/
structure TransactionInfo where
  duid : String
  interface_id : String
  remote_id : String
  link_local : String
  request_type : String
  response_type : Option String
  deriving DecidableEq, Repr

/-- `Command.get_transaction_info` (process_kafka.py): extraction mirrors the
writer's `get_identifiers`; the request type has a `Message` suffix stripped,
while the response type is the raw class name of the unwrapped response when
that is a `ClientServerMessage`, else `None`. -/
def get_transaction_info (m : KafkaMsg) : Except PyErr TransactionInfo :=
  match m.message_in with
  | none => .error .attributeError
  | some im =>
      match im.duid with
      | none => .error .attributeError
      | some bs =>
          .ok { duid := duidRepr bs
                interface_id := renderInterfaceId im.interfaceId
                remote_id := renderRemoteId im.remoteId
                link_local := im.peerAddress
                request_type := stripMessageSuffix im.className
                response_type :=
                  match m.message_out with
                  | some om => if om.isClientServer then some om.className else none
                  | none => none }

/-- The Django database as seen by the command: the three tables plus a
fresh-pk counter for newly created rows. -/
structure Store where
  servers : List Server
  clients : List Client
  transactions : List Transaction
  nextPk : Nat
  deriving DecidableEq, Repr

/-- `Server.objects.get_or_create(name=...)`: reuse the unique row with this
name, else append a fresh one. -/
def get_or_create_server (name : String) (st : Store) : Nat × Store :=
  match st.servers.find? (fun s => s.name = name) with
  | some s => (s.pk, st)
  | none =>
      (st.nextPk,
       { st with servers := st.servers ++ [⟨st.nextPk, name⟩], nextPk := st.nextPk + 1 })

/-- The `unique_together` identifier triple match on a client row. -/
def clientTuple (duid iid rid : String) (c : Client) : Bool :=
  c.duid = duid && c.interface_id = iid && c.remote_id = rid

/-- `Client.objects.get_or_create(duid=..., interface_id=..., remote_id=...)`:
reuse the row with this unique identifier triple, else append a fresh one. -/
def get_or_create_client (duid iid rid : String) (st : Store) : Nat × Store :=
  match st.clients.find? (clientTuple duid iid rid) with
  | some c => (c.pk, st)
  | none =>
      (st.nextPk,
       { st with clients := st.clients ++ [⟨st.nextPk, duid, iid, rid⟩],
                 nextPk := st.nextPk + 1 })

/-- The `defaults={...}` dictionary of the `update_or_create` call. -/
structure TxnDefaults where
  request_type : String
  request : String
  request_ll : String
  response_type : Option String
  response_ts : Int
  response : String
  deriving DecidableEq, Repr

/-- The `unique_together` key `(client, server, request_ts)`. -/
def txnKeyMatch (cpk spk : Nat) (ts : Int) (t : Transaction) : Bool :=
  t.client = cpk && t.server = spk && t.request_ts = ts

/-- Overwrite a transaction row with the `defaults` fields. -/
def applyDefaults (d : TxnDefaults) (t : Transaction) : Transaction :=
  { t with request_type := some d.request_type, request := d.request,
           request_ll := d.request_ll, response_type := d.response_type,
           response_ts := d.response_ts, response := d.response }

/-- `Transaction.objects.update_or_create(client=..., server=...,
request_ts=..., defaults={...})`: update the row matching the unique key in
place, else insert a fresh row built from the key and the defaults. -/
def update_or_create_transaction (cpk spk : Nat) (ts : Int) (d : TxnDefaults)
    (st : Store) : Store :=
  if st.transactions.any (txnKeyMatch cpk spk ts) then
    { st with transactions :=
        st.transactions.map fun t =>
          if txnKeyMatch cpk spk ts t then applyDefaults d t else t }
  else
    { st with
        transactions := st.transactions ++
          [applyDefaults d
            { pk := st.nextPk, client := cpk, server := spk, request_ts := ts,
              request_type := none, request := "", request_ll := "",
              response_type := none, response := "", response_ts := 0 }],
        nextPk := st.nextPk + 1 }

/-- The retention settings the command reads from `app_settings`
(`MAX_TRANSACTIONS`, `MAX_TRANSACTION_AGE` in seconds). -/
structure RetentionCfg where
  maxTransactions : Option Nat
  maxTransactionAge : Option Int
  deriving DecidableEq, Repr

/-- Python truthiness of `app_settings.MAX_TRANSACTIONS`
(`None` and `0` are falsy). -/
def countTruthy : Option Nat → Bool
  | none => false
  | some n => n != 0

/-- Python truthiness of `app_settings.MAX_TRANSACTION_AGE`
(`None` and a zero timedelta are falsy). -/
def ageTruthy : Option Int → Bool
  | none => false
  | some d => d != 0

/-- The `(client, server)` pair scope of a retention pass
(`Transaction.objects.filter(client=client, server=server)`). -/
def pairMatch (cpk spk : Nat) (t : Transaction) : Bool :=
  t.client = cpk && t.server = spk

/-- Insert a transaction into a list sorted by descending `request_ts`. -/
def insertDescByTs (t : Transaction) : List Transaction → List Transaction
  | [] => [t]
  | u :: us =>
      if t.request_ts ≤ u.request_ts then u :: insertDescByTs t us
      else t :: u :: us

/-- `order_by('-request_ts')`: sort by descending request timestamp. -/
def sortDescByTs (l : List Transaction) : List Transaction :=
  l.foldr insertDescByTs []

/-- The retention block of `Command.process_message` (process_kafka.py lines
264-279): scoped to the `(client, server)` pair just written, apply the age
filter (`request_ts__gte = request_ts - MAX_TRANSACTION_AGE`) when the age
limit is truthy, then the count filter (top `MAX_TRANSACTIONS` by descending
`request_ts`) when the count limit is truthy, and delete the pair's rows
whose pk is not among the kept ones. -/
def retention (cfg : RetentionCfg) (cpk spk : Nat) (request_ts : Int)
    (txns : List Transaction) : List Transaction :=
  if countTruthy cfg.maxTransactions || ageTruthy cfg.maxTransactionAge then
    let my := txns.filter (pairMatch cpk spk)
    let keep1 :=
      if ageTruthy cfg.maxTransactionAge then
        my.filter (fun t => request_ts - cfg.maxTransactionAge.getD 0 ≤ t.request_ts)
      else my
    let keep :=
      if countTruthy cfg.maxTransactions then
        (sortDescByTs keep1).take (cfg.maxTransactions.getD 0)
      else keep1
    let keepPks := keep.map (·.pk)
    txns.filter (fun t => !(pairMatch cpk spk t) || keepPks.contains t.pk)
  else txns

/-- The store writes of `Command.process_message` once extraction has
succeeded: `get_or_create` the server and client rows, `update_or_create`
the transaction keyed by `(client, server, request_ts)` with all request and
response fields in `defaults`, then apply retention for that pair. -/
def writeStep (cfg : RetentionCfg) (m : KafkaMsg) (im : InMsg)
    (info : TransactionInfo) (st : Store) : Store :=
  let s1 := get_or_create_server m.server_name st
  let s2 := get_or_create_client info.duid info.interface_id info.remote_id s1.2
  let response := match m.message_out with | some om => om.json | none => ""
  let st3 := update_or_create_transaction s2.1 s1.1 m.timestamp_in
    { request_type := info.request_type, request := im.json,
      request_ll := info.link_local, response_type := info.response_type,
      response_ts := m.timestamp_out, response := response } s2.2
  { st3 with transactions := retention cfg s2.1 s1.1 m.timestamp_in st3.transactions }

/-- `Command.process_message` (process_kafka.py): skip messages without an
inbound message; extract the transaction info (an `AttributeError` from a
missing `ClientIdOption` propagates to the caller); then run the store
writes of `writeStep`. -/
def process_message (cfg : RetentionCfg) (m : KafkaMsg) (st : Store) :
    Except PyErr Store :=
  match m.message_in with
  | none => .ok st
  | some im =>
      match get_transaction_info m with
      | .error e => .error e
      | .ok info => .ok (writeStep cfg m im info st)

/-- The identifier triple of a client row. -/
def clientKey (c : Client) : String × String × String :=
  (c.duid, c.interface_id, c.remote_id)

/-- Stated from the spec's words, for comparison with `retention`: when both
limits are configured the kept set for the written `(client, server)` pair is
obtained by applying the age filter first (request timestamp within `d` of
the event's request timestamp) and then the count filter (top `n` by request
timestamp descending). -/
def specSurvivors (n : Nat) (d : Int) (eventTs : Int)
    (pairTxns : List Transaction) : List Transaction :=
  (sortDescByTs (pairTxns.filter (fun t => eventTs - d ≤ t.request_ts))).take n

/-- A transaction row for concrete examples: only the key fields vary. -/
def mkTxn (pk cpk spk : Nat) (ts : Int) : Transaction :=
  { pk := pk, client := cpk, server := spk, request_ts := ts,
    request_type := some "Solicit", request := "r", request_ll := "fe80::1",
    response_type := none, response := "", response_ts := 0 }

/-- A Kafka message carrying both an inbound and an outbound message. -/
def sampleMsg : KafkaMsg :=
  { server_name := "dhcp1"
    message_in := some { duid := some [0, 1], interfaceId := some [101, 116, 104, 48],
                         remoteId := none, peerAddress := "fe80::1",
                         className := "SolicitMessage", json := "injson" }
    message_out := some { isClientServer := true, className := "AdvertiseMessage",
                          json := "outjson" }
    timestamp_in := 100
    timestamp_out := 101 }

/-- `sampleMsg` with the outbound message removed: a `pre`-style record. -/
def samplePreMsg : KafkaMsg := { sampleMsg with message_out := none }

end Kafka

/-- A sample bundle whose request carries a client DUID. -/
def sampleBundle : Bundle :=
  { request := { clientDuid := some [0, 1], className := "SolicitMessage", json := "reqjson" }
    relay0 := { peerAddress := "fe80::1", interfaceId := some [101, 116, 104, 48],
                remoteId := none }
    responseClassName := "ReplyMessage"
    responseJson := "respjson" }

/-- A sample bundle whose request lacks the `ClientIdOption`, so that
`get_identifiers` raises `AttributeError`. -/
def noDuidBundle : Bundle :=
  { request := { clientDuid := none, className := "SolicitMessage", json := "reqjson" }
    relay0 := { peerAddress := "fe80::1", interfaceId := none, remoteId := none }
    responseClassName := "ReplyMessage"
    responseJson := "respjson" }

/-- A fresh sqlite connection state over an empty store. -/
def dbEmpty : Db := { committed := [], current := [] }

/-- A `pre` work item whose request/response `UPDATE` raises
`sqlite3.DatabaseError` after the client `INSERT` succeeded. -/
def updateFailItem : QueueItem :=
  { stage := "pre", bundle := sampleBundle, now := "2016-01-01 00:00:00",
    fail := { updateRaises := true } }

/-- A `pre` work item whose bundle lacks the client identifier. -/
def noDuidItem : QueueItem :=
  { stage := "pre", bundle := noDuidBundle, now := "2016-01-01 00:00:00" }

/-- A Python configuration value as far as `app_settings.py` inspects it. -/
inductive PyVal where
  | pynone
  | int (n : Int)
  | str (s : String)
  | timedelta (seconds : Int)
  deriving DecidableEq, Repr

/-- Python truthiness of a configuration value. -/
def pyTruthy : PyVal → Bool
  | .pynone => false
  | .int n => n != 0
  | .str s => s != ""
  | .timedelta d => d != 0

/-- `isinstance(v, int)`. -/
def isInstInt : PyVal → Bool
  | .int _ => true
  | _ => false

/-- `isinstance(v, datetime.timedelta)`. -/
def isInstTimedelta : PyVal → Bool
  | .timedelta _ => true
  | _ => false

/-- The outcome of loading one setting at module import time. -/
inductive ConfigOutcome where
  | ok (v : PyVal)
  | improperlyConfigured
  deriving DecidableEq, Repr

/-- `app_settings.MAX_TRANSACTIONS`: `getattr(settings,
'DHCPKIT_LG_MAX_TRANSACTIONS', 20)`, then raise `ImproperlyConfigured` when
the value is truthy and not an `int`. -/
def loadMaxTransactions (configured : Option PyVal) : ConfigOutcome :=
  let v := configured.getD (.int 20)
  if pyTruthy v && !isInstInt v then .improperlyConfigured else .ok v

/-- `app_settings.MAX_TRANSACTION_AGE`: `getattr(settings,
'DHCPKIT_LG_MAX_TRANSACTION_AGE', datetime.timedelta(days=7))` (604800
seconds), then raise `ImproperlyConfigured` when the value is truthy and not
a `timedelta`. -/
def loadMaxTransactionAge (configured : Option PyVal) : ConfigOutcome :=
  let v := configured.getD (.timedelta 604800)
  if pyTruthy v && !isInstTimedelta v then .improperlyConfigured else .ok v

/-! ## Helper lemmas -/

theorem hexDigit_inj16 : ∀ m n : Fin 16, hexDigit m.val = hexDigit n.val → m.val = n.val := by
  decide

theorem hexDigit_mem_lowercase : ∀ n : Fin 16, hexDigit n.val ∈ "0123456789abcdef".data := by
  decide

theorem hexByte_inj {b1 b2 : Byte} (h : hexByte b1 = hexByte b2) : b1 = b2 := by
  have h1 : hexDigit (b1.val / 16) = hexDigit (b2.val / 16) := by
    simpa [hexByte] using congrArg (fun l => l.headD 'x') h
  have h2 : hexDigit (b1.val % 16) = hexDigit (b2.val % 16) := by
    simpa [hexByte] using congrArg (fun l => (l.drop 1).headD 'x') h
  have hb1 : b1.val < 256 := b1.isLt
  have hb2 : b2.val < 256 := b2.isLt
  have e1 : b1.val / 16 = b2.val / 16 :=
    hexDigit_inj16 ⟨b1.val / 16, by omega⟩ ⟨b2.val / 16, by omega⟩ h1
  have e2 : b1.val % 16 = b2.val % 16 :=
    hexDigit_inj16 ⟨b1.val % 16, by omega⟩ ⟨b2.val % 16, by omega⟩ h2
  have : b1.val = b2.val := by omega
  exact Fin.ext this

theorem hexFlat_inj : ∀ bs1 bs2 : List Byte,
    bs1.flatMap hexByte = bs2.flatMap hexByte → bs1 = bs2
  | [], [], _ => rfl
  | [], b :: t, h => by simp [hexByte] at h
  | b :: t, [], h => by simp [hexByte] at h
  | b :: t, b2 :: t2, h => by
      rw [List.flatMap_cons, List.flatMap_cons] at h
      simp only [hexByte, List.cons_append, List.nil_append, List.cons.injEq] at h
      obtain ⟨h1, h2, h3⟩ := h
      have hb : b = b2 := hexByte_inj (by simp [hexByte, h1, h2])
      have ht : t = t2 := hexFlat_inj t t2 h3
      rw [hb, ht]

theorem hexEncode_inj {bs1 bs2 : List Byte} (h : hexEncode bs1 = hexEncode bs2) :
    bs1 = bs2 := by
  apply hexFlat_inj
  have : (hexEncode bs1).data = (hexEncode bs2).data := congrArg String.data h
  exact this

theorem duidRepr_inj {bs1 bs2 : List Byte} (h : duidRepr bs1 = duidRepr bs2) :
    bs1 = bs2 := by
  apply hexFlat_inj
  have hd := congrArg String.data h
  simp only [duidRepr] at hd
  rw [String.data_append "0x" (hexEncode bs1), String.data_append "0x" (hexEncode bs2)] at hd
  exact List.append_cancel_left hd

theorem hexEncode_lowercase (bs : List Byte) :
    ∀ c ∈ (hexEncode bs).data, c ∈ "0123456789abcdef".data := by
  intro c hc
  have : c ∈ bs.flatMap hexByte := hc
  rw [List.mem_flatMap] at this
  obtain ⟨b, _, hb⟩ := this
  have hlt : b.val < 256 := b.isLt
  simp only [hexByte, List.mem_cons, List.mem_singleton] at hb
  rcases hb with h | h | h
  · exact h ▸ hexDigit_mem_lowercase ⟨b.val / 16, by omega⟩
  · exact h ▸ hexDigit_mem_lowercase ⟨b.val % 16, by omega⟩
  · simp at h

theorem runLoop_processed (items : List QueueItem) (rest : List (Option QueueItem)) (db : Db) :
    (runLoop (items.map some ++ none :: rest) db).2.1 = items := by
  induction items generalizing db with
  | nil => rfl
  | cons it t ih => simp [runLoop, ih]

theorem runLoop_db (items : List QueueItem) (rest : List (Option QueueItem)) (db : Db) :
    (runLoop (items.map some ++ none :: rest) db).1 =
      items.foldl (fun d it => (runStep it d).1) db := by
  induction items generalizing db with
  | nil => rfl
  | cons it t ih => simp [runLoop, ih]

theorem runLoop_stops (items : List QueueItem) (rest : List (Option QueueItem)) (db : Db) :
    runLoop (items.map some ++ none :: rest) db =
      runLoop (items.map some ++ [none]) db := by
  induction items generalizing db with
  | nil => rfl
  | cons it t ih => simp [runLoop, ih]

namespace Kafka

theorem mem_insertDescByTs (t a : Transaction) (l : List Transaction) :
    a ∈ insertDescByTs t l ↔ a = t ∨ a ∈ l := by
  induction l with
  | nil => simp [insertDescByTs]
  | cons u us ih =>
      simp only [insertDescByTs]
      by_cases h : t.request_ts ≤ u.request_ts
      · rw [if_pos h]
        simp only [List.mem_cons, ih]
        tauto
      · rw [if_neg h]
        simp only [List.mem_cons]

theorem mem_sortDescByTs (a : Transaction) (l : List Transaction) :
    a ∈ sortDescByTs l ↔ a ∈ l := by
  induction l with
  | nil => exact Iff.rfl
  | cons u us ih =>
      have hstep : sortDescByTs (u :: us) = insertDescByTs u (sortDescByTs us) := rfl
      rw [hstep, mem_insertDescByTs, ih, List.mem_cons]

theorem retention_truthy_eq (cfg : RetentionCfg) (n : Nat) (d : Int)
    (cpk spk : Nat) (ts : Int) (txns : List Transaction)
    (hn : cfg.maxTransactions = some n) (hn0 : n ≠ 0)
    (hd : cfg.maxTransactionAge = some d) (hd0 : d ≠ 0) :
    retention cfg cpk spk ts txns =
      txns.filter (fun t => !(pairMatch cpk spk t) ||
        ((specSurvivors n d ts (txns.filter (pairMatch cpk spk))).map (·.pk)).contains t.pk) := by
  have hb1 : countTruthy cfg.maxTransactions = true := by simp [countTruthy, hn, hn0]
  have hb2 : ageTruthy cfg.maxTransactionAge = true := by simp [ageTruthy, hd, hd0]
  unfold retention
  rw [hb1, hb2, hd]
  simp [specSurvivors, hb1, hn]

theorem clientTuple_iff (d i r : String) (a : Client) :
    clientTuple d i r a = true ↔ clientKey a = (d, i, r) := by
  simp [clientTuple, clientKey, Prod.ext_iff, and_assoc]

theorem filter_key_singleton {α β : Type} [DecidableEq β] (f : α → β) (p : α → Bool)
    (x : β) (hp : ∀ a, p a = true ↔ f a = x) :
    ∀ l : List α, (l.map f).Nodup → ∀ a ∈ l, f a = x → l.filter p = [a] := by
  intro l
  induction l with
  | nil => intro _ a ha; cases ha
  | cons b t ih =>
      intro hnd a ha hfa
      rw [List.map_cons, List.nodup_cons] at hnd
      obtain ⟨hb, ht⟩ := hnd
      rcases List.mem_cons.mp ha with rfl | hat
      · rw [List.filter_cons_of_pos ((hp a).mpr hfa)]
        have hrest : t.filter p = [] := by
          rw [List.filter_eq_nil_iff]
          intro c hc hpc
          exact hb (by rw [hfa, ← (hp c).mp hpc]; exact List.mem_map_of_mem f hc)
        rw [hrest]
      · have hbx : ¬ (p b = true) := by
          intro hpb
          exact hb (by rw [(hp b).mp hpb, ← hfa]; exact List.mem_map_of_mem f hat)
        rw [List.filter_cons_of_neg hbx]
        exact ih ht a hat hfa

theorem get_transaction_info_message_in (m : KafkaMsg) (info : TransactionInfo)
    (h : get_transaction_info m = .ok info) : ∃ im, m.message_in = some im := by
  unfold get_transaction_info at h
  cases hm : m.message_in with
  | none => rw [hm] at h; cases h
  | some im => exact ⟨im, rfl⟩

theorem process_message_eq (cfg : RetentionCfg) (m : KafkaMsg) (st : Store)
    (im : InMsg) (info : TransactionInfo)
    (him : m.message_in = some im) (hinfo : get_transaction_info m = .ok info) :
    process_message cfg m st = .ok (writeStep cfg m im info st) := by
  unfold process_message
  rw [him, hinfo]

theorem gocs_clients (name : String) (st : Store) :
    (get_or_create_server name st).2.clients = st.clients := by
  unfold get_or_create_server
  cases h : st.servers.find? (fun s => s.name = name) <;> simp

theorem gocs_transactions (name : String) (st : Store) :
    (get_or_create_server name st).2.transactions = st.transactions := by
  unfold get_or_create_server
  cases h : st.servers.find? (fun s => s.name = name) <;> simp

theorem gocs_of_found (name : String) (st : Store) (r : Server)
    (h : st.servers.find? (fun s => s.name = name) = some r) :
    get_or_create_server name st = (r.pk, st) := by
  unfold get_or_create_server
  rw [h]

theorem gocs_servers_find (name : String) (st : Store) :
    ∃ r : Server,
      (get_or_create_server name st).2.servers.find? (fun s => s.name = name) = some r ∧
      r.pk = (get_or_create_server name st).1 := by
  unfold get_or_create_server
  cases h : st.servers.find? (fun s => s.name = name) with
  | some s => exact ⟨s, by simp [h], rfl⟩
  | none =>
      refine ⟨⟨st.nextPk, name⟩, ?_, rfl⟩
      simp [List.find?_append, h]

theorem gocc_of_found (d i r : String) (st : Store) (c : Client)
    (h : st.clients.find? (clientTuple d i r) = some c) :
    get_or_create_client d i r st = (c.pk, st) := by
  unfold get_or_create_client
  rw [h]

theorem gocc_of_none (d i r : String) (st : Store)
    (h : st.clients.find? (clientTuple d i r) = none) :
    get_or_create_client d i r st =
      (st.nextPk,
       { st with clients := st.clients ++ [⟨st.nextPk, d, i, r⟩],
                 nextPk := st.nextPk + 1 }) := by
  unfold get_or_create_client
  rw [h]

theorem gocc_servers (d i r : String) (st : Store) :
    (get_or_create_client d i r st).2.servers = st.servers := by
  unfold get_or_create_client
  cases h : st.clients.find? (clientTuple d i r) <;> simp

theorem gocc_transactions (d i r : String) (st : Store) :
    (get_or_create_client d i r st).2.transactions = st.transactions := by
  unfold get_or_create_client
  cases h : st.clients.find? (clientTuple d i r) <;> simp

theorem uoc_clients (cpk spk : Nat) (ts : Int) (d : TxnDefaults) (st : Store) :
    (update_or_create_transaction cpk spk ts d st).clients = st.clients := by
  unfold update_or_create_transaction
  split <;> rfl

theorem uoc_servers (cpk spk : Nat) (ts : Int) (d : TxnDefaults) (st : Store) :
    (update_or_create_transaction cpk spk ts d st).servers = st.servers := by
  unfold update_or_create_transaction
  split <;> rfl

theorem writeStep_clients (cfg : RetentionCfg) (m : KafkaMsg) (im : InMsg)
    (info : TransactionInfo) (st : Store) :
    (writeStep cfg m im info st).clients =
      (get_or_create_client info.duid info.interface_id info.remote_id
        (get_or_create_server m.server_name st).2).2.clients := by
  unfold writeStep
  simp only [uoc_clients]

theorem writeStep_servers (cfg : RetentionCfg) (m : KafkaMsg) (im : InMsg)
    (info : TransactionInfo) (st : Store) :
    (writeStep cfg m im info st).servers =
      (get_or_create_server m.server_name st).2.servers := by
  unfold writeStep
  simp only [uoc_servers, gocc_servers]

theorem gocc_idem_pk (d i r : String) (st : Store) :
    ∃ c : Client,
      (get_or_create_client d i r st).2.clients.find? (clientTuple d i r) = some c ∧
      c.pk = (get_or_create_client d i r st).1 := by
  unfold get_or_create_client
  cases h : st.clients.find? (clientTuple d i r) with
  | some c => exact ⟨c, by simp [h], rfl⟩
  | none =>
      refine ⟨⟨st.nextPk, d, i, r⟩, ?_, rfl⟩
      simp [List.find?_append, h, clientTuple]

theorem writeStep_transactions (cfg : RetentionCfg) (m : KafkaMsg) (im : InMsg)
    (info : TransactionInfo) (st : Store) :
    (writeStep cfg m im info st).transactions =
      retention cfg
        (get_or_create_client info.duid info.interface_id info.remote_id
          (get_or_create_server m.server_name st).2).1
        (get_or_create_server m.server_name st).1
        m.timestamp_in
        (update_or_create_transaction
          (get_or_create_client info.duid info.interface_id info.remote_id
            (get_or_create_server m.server_name st).2).1
          (get_or_create_server m.server_name st).1
          m.timestamp_in
          { request_type := info.request_type, request := im.json,
            request_ll := info.link_local, response_type := info.response_type,
            response_ts := m.timestamp_out,
            response := match m.message_out with | some om => om.json | none => "" }
          (get_or_create_client info.duid info.interface_id info.remote_id
            (get_or_create_server m.server_name st).2).2).transactions := rfl

theorem uoc_of_no_match (cpk spk : Nat) (ts : Int) (d : TxnDefaults) (st : Store)
    (h : st.transactions.any (txnKeyMatch cpk spk ts) = false) :
    (update_or_create_transaction cpk spk ts d st).transactions =
      st.transactions ++
        [applyDefaults d
          { pk := st.nextPk, client := cpk, server := spk, request_ts := ts,
            request_type := none, request := "", request_ll := "",
            response_type := none, response := "", response_ts := 0 }] := by
  simp [update_or_create_transaction, h]

theorem uoc_of_match_singleton (cpk spk : Nat) (ts : Int) (d : TxnDefaults)
    (st : Store) (t : Transaction) (htr : st.transactions = [t])
    (hm : txnKeyMatch cpk spk ts t = true) :
    (update_or_create_transaction cpk spk ts d st).transactions =
      [applyDefaults d t] := by
  unfold update_or_create_transaction
  rw [htr]
  simp [hm]

theorem retention_singleton (cfg : RetentionCfg) (cpk spk : Nat) (ts : Int)
    (t : Transaction) (hc : t.client = cpk) (hs : t.server = spk)
    (ht : t.request_ts = ts)
    (hage : ∀ dd, cfg.maxTransactionAge = some dd → 0 ≤ dd) :
    retention cfg cpk spk ts [t] = [t] := by
  have hpair : pairMatch cpk spk t = true := by simp [pairMatch, hc, hs]
  unfold retention
  cases hcm : cfg.maxTransactions with
  | none =>
      cases ham : cfg.maxTransactionAge with
      | none => simp [countTruthy, ageTruthy]
      | some dd =>
          have hdd := hage dd ham
          by_cases hz : dd = 0
          · simp [countTruthy, ageTruthy, hz]
          · have hle : ts ≤ t.request_ts + dd := by rw [ht]; omega
            simp [countTruthy, ageTruthy, hz, hpair, hle, sortDescByTs, insertDescByTs]
  | some n =>
      by_cases hn : n = 0
      · cases ham : cfg.maxTransactionAge with
        | none => simp [countTruthy, ageTruthy, hn]
        | some dd =>
            have hdd := hage dd ham
            by_cases hz : dd = 0
            · simp [countTruthy, ageTruthy, hn, hz]
            · have hle : ts ≤ t.request_ts + dd := by rw [ht]; omega
              simp [countTruthy, ageTruthy, hn, hz, hpair, hle, sortDescByTs,
                insertDescByTs]
      · obtain ⟨k, rfl⟩ : ∃ k, n = k + 1 := by
          cases n with
          | zero => exact absurd rfl hn
          | succ k => exact ⟨k, rfl⟩
        cases ham : cfg.maxTransactionAge with
        | none =>
            simp [countTruthy, ageTruthy, hpair, sortDescByTs, insertDescByTs]
        | some dd =>
            have hdd := hage dd ham
            by_cases hz : dd = 0
            · simp [countTruthy, ageTruthy, hz, hpair, sortDescByTs, insertDescByTs]
            · have hle : ts ≤ t.request_ts + dd := by rw [ht]; omega
              simp [countTruthy, ageTruthy, hz, hpair, hle, sortDescByTs,
                insertDescByTs]

theorem writeStep_on_empty (cfg : RetentionCfg) (m : KafkaMsg) (im : InMsg)
    (info : TransactionInfo) (st : Store)
    (htx : st.transactions = [])
    (hage : ∀ dd, cfg.maxTransactionAge = some dd → 0 ≤ dd) :
    ∃ row1 : Transaction,
      (writeStep cfg m im info st).transactions = [row1] ∧
      row1.client = (get_or_create_client info.duid info.interface_id info.remote_id
        (get_or_create_server m.server_name st).2).1 ∧
      row1.server = (get_or_create_server m.server_name st).1 ∧
      row1.request_ts = m.timestamp_in ∧
      row1.request_type = some info.request_type ∧
      row1.request = im.json ∧
      row1.request_ll = info.link_local ∧
      row1.response_type = info.response_type ∧
      row1.response = (match m.message_out with | some o => o.json | none => "") ∧
      row1.response_ts = m.timestamp_out := by
  have htxB : (get_or_create_client info.duid info.interface_id info.remote_id
      (get_or_create_server m.server_name st).2).2.transactions = [] := by
    rw [gocc_transactions, gocs_transactions, htx]
  have hany : ((get_or_create_client info.duid info.interface_id info.remote_id
      (get_or_create_server m.server_name st).2).2.transactions.any
        (txnKeyMatch
          (get_or_create_client info.duid info.interface_id info.remote_id
            (get_or_create_server m.server_name st).2).1
          (get_or_create_server m.server_name st).1
          m.timestamp_in)) = false := by
    rw [htxB]
    rfl
  refine ⟨applyDefaults
      { request_type := info.request_type, request := im.json,
        request_ll := info.link_local, response_type := info.response_type,
        response_ts := m.timestamp_out,
        response := match m.message_out with | some o => o.json | none => "" }
      { pk := (get_or_create_client info.duid info.interface_id info.remote_id
          (get_or_create_server m.server_name st).2).2.nextPk,
        client := (get_or_create_client info.duid info.interface_id info.remote_id
          (get_or_create_server m.server_name st).2).1,
        server := (get_or_create_server m.server_name st).1,
        request_ts := m.timestamp_in, request_type := none, request := "",
        request_ll := "", response_type := none, response := "", response_ts := 0 },
    ?_, rfl, rfl, rfl, rfl, rfl, rfl, rfl, rfl, rfl⟩
  rw [writeStep_transactions, uoc_of_no_match _ _ _ _ _ hany, htxB]
  rw [List.nil_append]
  exact retention_singleton cfg _ _ _ _ rfl rfl rfl hage

theorem writeStep_on_singleton (cfg : RetentionCfg) (m : KafkaMsg) (im : InMsg)
    (info : TransactionInfo) (st : Store) (row : Transaction)
    (htx : st.transactions = [row])
    (hcl : row.client = (get_or_create_client info.duid info.interface_id
        info.remote_id (get_or_create_server m.server_name st).2).1)
    (hsv : row.server = (get_or_create_server m.server_name st).1)
    (hts : row.request_ts = m.timestamp_in)
    (hage : ∀ dd, cfg.maxTransactionAge = some dd → 0 ≤ dd) :
    (writeStep cfg m im info st).transactions =
      [applyDefaults
        { request_type := info.request_type, request := im.json,
          request_ll := info.link_local, response_type := info.response_type,
          response_ts := m.timestamp_out,
          response := match m.message_out with | some o => o.json | none => "" }
        row] := by
  have htxB : (get_or_create_client info.duid info.interface_id info.remote_id
      (get_or_create_server m.server_name st).2).2.transactions = [row] := by
    rw [gocc_transactions, gocs_transactions, htx]
  have hkm : txnKeyMatch
      (get_or_create_client info.duid info.interface_id info.remote_id
        (get_or_create_server m.server_name st).2).1
      (get_or_create_server m.server_name st).1
      m.timestamp_in row = true := by
    simp [txnKeyMatch, hcl, hsv, hts]
  rw [writeStep_transactions, uoc_of_match_singleton _ _ _ _ _ row htxB hkm]
  exact retention_singleton cfg _ _ _ _ hcl hsv hts hage

theorem writeStep_clients_of_found (cfg : RetentionCfg) (m : KafkaMsg) (im : InMsg)
    (info : TransactionInfo) (st : Store) (c : Client)
    (hc : c ∈ st.clients)
    (hct : clientTuple info.duid info.interface_id info.remote_id c = true) :
    (writeStep cfg m im info st).clients = st.clients := by
  rw [writeStep_clients]
  have hcl := gocs_clients m.server_name st
  have hsome : ((get_or_create_server m.server_name st).2.clients.find?
      (clientTuple info.duid info.interface_id info.remote_id)).isSome := by
    rw [hcl]
    exact List.find?_isSome.mpr ⟨c, hc, hct⟩
  obtain ⟨r, hr⟩ := Option.isSome_iff_exists.mp hsome
  rw [gocc_of_found _ _ _ _ r hr]
  exact hcl

end Kafka

/-! ## Claim theorems -/

/-- C5: identifier extraction renders a relay-reported interface-id or
remote-id as text when the raw bytes are valid ASCII and otherwise as the
deterministic lowercase hex string behind a `0x` marker (the remote-id with
its enterprise number in front in both cases); concretely the bytes
`\xDE\xAD\xBE\xEF` yield `0xdeadbeef` as an interface-id and
`9:0xdeadbeef` as a remote-id of enterprise 9, while the ASCII bytes `eth0`
yield `eth0` and `9:eth0` unchanged; an absent relay option yields the
empty string; and extraction returns a value (raises nothing) on arbitrary
relay bytes whenever the client identifier is present. -/
theorem C5_ascii_or_hex_rendering :
    (∀ bs : List Byte, isAscii bs = true → renderInterfaceId (some bs) = asciiDecode bs) ∧
    (∀ bs : List Byte, isAscii bs = false →
        renderInterfaceId (some bs) = "0x" ++ hexEncode bs) ∧
    (∀ (ent : Nat) (bs : List Byte), isAscii bs = true →
        renderRemoteId (some (ent, bs)) = toString ent ++ ":" ++ asciiDecode bs) ∧
    (∀ (ent : Nat) (bs : List Byte), isAscii bs = false →
        renderRemoteId (some (ent, bs)) = toString ent ++ ":0x" ++ hexEncode bs) ∧
    renderInterfaceId (some [0xDE, 0xAD, 0xBE, 0xEF]) = "0xdeadbeef" ∧
    renderInterfaceId (some [101, 116, 104, 48]) = "eth0" ∧
    renderRemoteId (some (9, [0xDE, 0xAD, 0xBE, 0xEF])) = "9:0xdeadbeef" ∧
    renderRemoteId (some (9, [101, 116, 104, 48])) = "9:eth0" ∧
    renderInterfaceId none = "" ∧
    renderRemoteId none = "" ∧
    (∀ b : Bundle, b.request.clientDuid.isSome = true →
        ∃ ids, get_identifiers b = .ok ids) := by
  refine ⟨?_, ?_, ?_, ?_, by decide, by decide, by decide, by decide, rfl, rfl, ?_⟩
  · intro bs h; simp [renderInterfaceId, h]
  · intro bs h; simp [renderInterfaceId, h]
  · intro ent bs h; simp [renderRemoteId, h]
  · intro ent bs h; simp [renderRemoteId, h]
  · intro b h
    cases hb : b.request.clientDuid with
    | none => rw [hb] at h; cases h
    | some bs =>
        exact ⟨{ duid := duidRepr bs,
                 interface_id := renderInterfaceId b.relay0.interfaceId,
                 remote_id := renderRemoteId b.relay0.remoteId,
                 link_local := b.relay0.peerAddress }, by simp [get_identifiers, hb]⟩

/-- Witness for C5 at concrete inputs, covering the interface-id hex
fallback, both remote-id renderings and the extraction totality. -/
theorem C5_witness :
    renderInterfaceId (some [0xDE, 0xAD, 0xBE, 0xEF]) =
      "0x" ++ hexEncode [0xDE, 0xAD, 0xBE, 0xEF] ∧
    renderRemoteId (some (9, [0xDE, 0xAD, 0xBE, 0xEF])) =
      toString 9 ++ ":0x" ++ hexEncode [0xDE, 0xAD, 0xBE, 0xEF] ∧
    renderRemoteId (some (9, [101, 116, 104, 48])) =
      toString 9 ++ ":" ++ asciiDecode [101, 116, 104, 48] ∧
    ∃ ids, get_identifiers sampleBundle = .ok ids :=
  ⟨C5_ascii_or_hex_rendering.2.1 _ (by decide),
   C5_ascii_or_hex_rendering.2.2.2.1 9 _ (by decide),
   C5_ascii_or_hex_rendering.2.2.1 9 _ (by decide),
   C5_ascii_or_hex_rendering.2.2.2.2.2.2.2.2.2.2 sampleBundle (by decide)⟩

/-- C10: the extracted client id is always `0x` followed by the lowercase
hex encoding of the serialized DUID bytes — the ASCII-text rendering is
never applied to it — and the representation is injective over DUID byte
values. -/
theorem C10_duid_always_hex :
    (∀ b : Bundle, ∀ bs : List Byte, b.request.clientDuid = some bs →
        ∃ ids, get_identifiers b = .ok ids ∧ ids.duid = "0x" ++ hexEncode bs) ∧
    (∀ bs : List Byte, ∀ c ∈ (hexEncode bs).data, c ∈ "0123456789abcdef".data) ∧
    (∀ bs1 bs2 : List Byte, duidRepr bs1 = duidRepr bs2 → bs1 = bs2) := by
  refine ⟨?_, hexEncode_lowercase, fun _ _ => duidRepr_inj⟩
  intro b bs hb
  exact ⟨{ duid := duidRepr bs,
           interface_id := renderInterfaceId b.relay0.interfaceId,
           remote_id := renderRemoteId b.relay0.remoteId,
           link_local := b.relay0.peerAddress },
         by simp [get_identifiers, hb], rfl⟩

/-- Witness for C10 at concrete inputs. -/
theorem C10_witness :
    (∃ ids, get_identifiers sampleBundle = .ok ids ∧
        ids.duid = "0x" ++ hexEncode [0, 1]) ∧
    ([0xAB] : List Byte) = [0xAB] :=
  ⟨C10_duid_always_hex.1 sampleBundle [0, 1] rfl,
   C10_duid_always_hex.2.2 [0xAB] [0xAB] rfl⟩

/-- C6: a producer call (`pre` or `post`) made while the channel holds its
fixed capacity of 1000 items drops the event, logs a warning, raises nothing
to the producer, and leaves the queue unchanged at capacity. -/
theorem C6_full_queue_drops (q : List (Option QueueItem)) (stage : String) (b : Bundle)
    (h : q.length = queueCapacity) :
    handlerEnqueue stage b q =
      (q, [⟨.warning, "Not logging transaction in LookingGlass: queue is full"⟩]) ∧
    (handlerEnqueue stage b q).1.length = queueCapacity := by
  have hput : put_nowait q (some { stage := stage, bundle := b }) = .error () := by
    unfold put_nowait
    rw [h]
    simp
  constructor
  · simp [handlerEnqueue, hput]
  · simp [handlerEnqueue, hput, h]

/-- Witness for C6 at a concrete full queue. -/
theorem C6_witness :
    handlerEnqueue "pre" sampleBundle (List.replicate 1000 none) =
      (List.replicate 1000 none,
       [⟨.warning, "Not logging transaction in LookingGlass: queue is full"⟩]) ∧
    (handlerEnqueue "pre" sampleBundle (List.replicate 1000 none)).1.length =
      queueCapacity :=
  C6_full_queue_drops (List.replicate 1000 none) "pre" sampleBundle
    (List.length_replicate 1000 none)

/-- C8: the sentinel terminates the consumer loop exactly when it is
dequeued and is never itself processed or persisted; the channel drains in
FIFO order, so every event enqueued before the sentinel is processed, in
order, before the worker exits, and the final database state is the fold of
the per-item step over exactly those events, independent of anything queued
after the sentinel. -/
theorem C8_sentinel_terminates (items : List QueueItem)
    (rest : List (Option QueueItem)) (db : Db) :
    (runLoop (items.map some ++ none :: rest) db).2.1 = items ∧
    (runLoop (items.map some ++ none :: rest) db).1 =
      items.foldl (fun d it => (runStep it d).1) db ∧
    runLoop (items.map some ++ none :: rest) db =
      runLoop (items.map some ++ [none]) db :=
  ⟨runLoop_processed items rest db, runLoop_db items rest db,
   runLoop_stops items rest db⟩

/-- C1 counterexample: on an empty store, a `pre` event whose request-field
`UPDATE` raises `sqlite3.DatabaseError` after the client `INSERT` succeeded
ends with the worker *committing* the client row (with its request fields
still `NULL`) instead of rolling the unit of work back: a partial mutation
is committed. -/
theorem C1_counterexample :
    dbEmpty.committed = [] ∧
    updateFailItem.fail.updateRaises = true ∧
    (runStep updateFailItem dbEmpty).1.committed =
      [{ duid := "0x0001", interface_id := "eth0", remote_id := "" }] ∧
    ({ duid := "0x0001", interface_id := "eth0", remote_id := "" } : ClientRow).last_request
      = none := by
  decide

/-- C1 (amended): an error escaping `process_item` (such as an extraction
failure) rolls the whole unit of work back; a storage error during the
client `INSERT` is caught and nothing new is committed; but a storage error
during the request/response `UPDATE` is caught inside `process_item` after
the `INSERT`, and the commit then persists the client-row insert without
the corresponding request/response-field write; in every case the worker
continues with the next event. -/
theorem C1_rollback_behavior (it : QueueItem) (db : Db)
    (hinv : db.current = db.committed) :
    (it.bundle.request.clientDuid = none →
        (runStep it db).1 = { committed := db.committed, current := db.committed }) ∧
    (it.fail.insertRaises = true → (runStep it db).1.committed = db.committed) ∧
    (∀ ids, it.fail.insertRaises = false → it.fail.updateRaises = true →
        get_identifiers it.bundle = .ok ids →
        (runStep it db).1.committed = insertOrIgnoreClient ids db.committed) ∧
    (∀ rest : List QueueItem,
        (runLoop (some it :: rest.map some ++ [none]) db).2.1 = it :: rest) := by
  refine ⟨?_, ?_, ?_, ?_⟩
  · intro h
    simp [runStep, process_item, get_identifiers, h]
  · intro h
    cases hid : get_identifiers it.bundle with
    | error e => simp [runStep, process_item, hid]
    | ok ids => simp [runStep, process_item, hid, h, hinv]
  · intro ids hins hupd hid
    rw [← hinv]
    by_cases hs : it.stage = "pre"
    · simp [runStep, process_item, hid, hins, hupd, hs]
    · by_cases hs2 : it.stage = "post"
      · simp [runStep, process_item, hid, hins, hupd, hs, hs2]
      · simp [runStep, process_item, hid, hins, hupd, hs, hs2]
  · intro rest
    simpa using runLoop_processed (it :: rest) [] db

/-- Witness for C1's amended theorem at the counterexample input. -/
theorem C1_witness :
    (runStep updateFailItem dbEmpty).1.committed =
      insertOrIgnoreClient
        { duid := "0x0001", interface_id := "eth0", remote_id := "",
          link_local := "fe80::1" }
        dbEmpty.committed :=
  (C1_rollback_behavior updateFailItem dbEmpty rfl).2.2.1 _ rfl rfl rfl

/-- C7 counterexample: an event without the required client identifier is
dropped (rolled back, nothing committed) and the worker continues, but the
bare `except:` handler emits no log entry at all — no warning is logged. -/
theorem C7_counterexample :
    noDuidItem.bundle.request.clientDuid = none ∧
    (runStep noDuidItem dbEmpty).2 = [] ∧
    (runLoop [some noDuidItem, none] dbEmpty).2.2 = [] ∧
    (runStep noDuidItem dbEmpty).1 = dbEmpty := by
  decide

/-- C7 (amended): for every event whose inbound message lacks the client
identifier, the worker drops that event silently — the `AttributeError`
escapes `process_item`, the unit of work is rolled back so nothing is
committed, no log entry is produced — and the worker continues processing
subsequent events; the failure is never fatal to the worker. -/
theorem C7_drop_without_mutation (it : QueueItem) (db : Db)
    (h : it.bundle.request.clientDuid = none) :
    (runStep it db).1 = { committed := db.committed, current := db.committed } ∧
    (runStep it db).2 = [] ∧
    (∀ rest : List QueueItem,
        (runLoop (some it :: rest.map some ++ [none]) db).2.1 = it :: rest) := by
  refine ⟨?_, ?_, ?_⟩
  · simp [runStep, process_item, get_identifiers, h]
  · simp [runStep, process_item, get_identifiers, h]
  · intro rest
    simpa using runLoop_processed (it :: rest) [] db

/-- Witness for C7's amended theorem at the counterexample input. -/
theorem C7_witness :
    (runStep noDuidItem dbEmpty).1 =
      { committed := dbEmpty.committed, current := dbEmpty.committed } ∧
    (runStep noDuidItem dbEmpty).2 = [] :=
  ⟨(C7_drop_without_mutation noDuidItem dbEmpty rfl).1,
   (C7_drop_without_mutation noDuidItem dbEmpty rfl).2.1⟩

/-- C9 counterexample: the configured value `''` has the wrong type (it is
not an `int`) yet, being falsy, it is silently accepted instead of raising
`ImproperlyConfigured`. -/
theorem C9_counterexample :
    isInstInt (PyVal.str "") = false ∧
    loadMaxTransactions (some (PyVal.str "")) = ConfigOutcome.ok (PyVal.str "") := by
  decide

/-- C9 (amended): when the Django settings omit the retention options the
defaults are max-count 20 and max-age 7 days (604800 s), both truthy, so
pruning occurs with no explicit configuration (concretely, a week-old
transaction is deleted on the next write for its pair); a *truthy*
configured value of the wrong type raises `ImproperlyConfigured` at load
time, while a falsy wrong-typed value is silently accepted. -/
theorem C9_defaults_apply (v w : PyVal)
    (hv : pyTruthy v = true) (hvi : isInstInt v = false)
    (hw : pyTruthy w = true) (hwt : isInstTimedelta w = false) :
    loadMaxTransactions none = .ok (.int 20) ∧
    loadMaxTransactionAge none = .ok (.timedelta 604800) ∧
    loadMaxTransactions (some v) = .improperlyConfigured ∧
    loadMaxTransactionAge (some w) = .improperlyConfigured ∧
    Kafka.retention ⟨some 20, some 604800⟩ 1 2 1000000
        [Kafka.mkTxn 1 1 2 0, Kafka.mkTxn 2 1 2 999000] =
      [Kafka.mkTxn 2 1 2 999000] := by
  refine ⟨rfl, rfl, ?_, ?_, by decide⟩
  · simp [loadMaxTransactions, hv, hvi]
  · simp [loadMaxTransactionAge, hw, hwt]

/-- C2: with both a truthy max-count `n` and a truthy max-age `d` configured,
the transactions of the written `(client, server)` pair surviving retention
are exactly those obtained by applying the age filter first (request
timestamp within `d` of the event's request timestamp) and the count filter
second (top `n` by request timestamp descending); rows of other pairs are
untouched and nothing is ever added; concretely, with max-count 3 and five
transactions of one pair, exactly the 3 most recent by request timestamp
remain. -/
theorem C2_retention_filters (cfg : Kafka.RetentionCfg) (n : Nat) (d : Int)
    (cpk spk : Nat) (eventTs : Int) (txns : List Kafka.Transaction)
    (hn : cfg.maxTransactions = some n) (hn0 : 0 < n)
    (hd : cfg.maxTransactionAge = some d) (hd0 : 0 < d)
    (hpk : (txns.map (·.pk)).Nodup) :
    (∀ t, (t ∈ Kafka.retention cfg cpk spk eventTs txns ∧
            Kafka.pairMatch cpk spk t = true) ↔
        t ∈ Kafka.specSurvivors n d eventTs (txns.filter (Kafka.pairMatch cpk spk))) ∧
    (∀ t ∈ txns, Kafka.pairMatch cpk spk t = false →
        t ∈ Kafka.retention cfg cpk spk eventTs txns) ∧
    (∀ t ∈ Kafka.retention cfg cpk spk eventTs txns, t ∈ txns) ∧
    Kafka.retention ⟨some 3, some 1000000⟩ 1 2 50
        [Kafka.mkTxn 1 1 2 10, Kafka.mkTxn 2 1 2 20, Kafka.mkTxn 3 1 2 30,
         Kafka.mkTxn 4 1 2 40, Kafka.mkTxn 5 1 2 50] =
      [Kafka.mkTxn 3 1 2 30, Kafka.mkTxn 4 1 2 40, Kafka.mkTxn 5 1 2 50] := by
  have hr := Kafka.retention_truthy_eq cfg n d cpk spk eventTs txns hn
    (by omega) hd (by omega)
  refine ⟨?_, ?_, ?_, by decide⟩
  · intro t
    rw [hr, List.mem_filter]
    constructor
    · rintro ⟨⟨htx, hcond⟩, hpair⟩
      rw [hpair] at hcond
      simp only [Bool.not_true, Bool.false_or] at hcond
      rw [List.elem_iff] at hcond
      obtain ⟨u, hu, hupk⟩ := List.mem_map.mp hcond
      have humem : u ∈ txns := by
        simp only [Kafka.specSurvivors] at hu
        have h1 := List.mem_of_mem_take hu
        have h2 := (Kafka.mem_sortDescByTs _ _).mp h1
        have h3 := (List.mem_filter.mp h2).1
        exact (List.mem_filter.mp h3).1
      have heq : u = t := List.inj_on_of_nodup_map hpk humem htx hupk
      rwa [← heq]
    · intro ht
      have hmem : t ∈ txns ∧ Kafka.pairMatch cpk spk t = true := by
        simp only [Kafka.specSurvivors] at ht
        have h1 := List.mem_of_mem_take ht
        have h2 := (Kafka.mem_sortDescByTs _ _).mp h1
        have h3 := List.mem_filter.mp h2
        have h4 := List.mem_filter.mp h3.1
        exact ⟨h4.1, h4.2⟩
      have hmap : t.pk ∈ (Kafka.specSurvivors n d eventTs
          (txns.filter (Kafka.pairMatch cpk spk))).map (·.pk) :=
        List.mem_map.mpr ⟨t, ht, rfl⟩
      refine ⟨⟨hmem.1, ?_⟩, hmem.2⟩
      rw [hmem.2]
      simp only [Bool.not_true, Bool.false_or]
      rw [List.elem_iff]
      exact hmap
  · intro t htx hpair
    rw [hr, List.mem_filter]
    exact ⟨htx, by rw [hpair]; rfl⟩
  · intro t ht
    rw [hr, List.mem_filter] at ht
    exact ht.1

/-- Witness for C2 at a concrete store of five same-pair transactions. -/
theorem C2_witness :
    Kafka.retention ⟨some 3, some 1000000⟩ 1 2 50
        [Kafka.mkTxn 1 1 2 10, Kafka.mkTxn 2 1 2 20, Kafka.mkTxn 3 1 2 30,
         Kafka.mkTxn 4 1 2 40, Kafka.mkTxn 5 1 2 50] =
      [Kafka.mkTxn 3 1 2 30, Kafka.mkTxn 4 1 2 40, Kafka.mkTxn 5 1 2 50] :=
  (C2_retention_filters ⟨some 3, some 1000000⟩ 3 1000000 1 2 50
      [Kafka.mkTxn 1 1 2 10, Kafka.mkTxn 2 1 2 20, Kafka.mkTxn 3 1 2 30,
       Kafka.mkTxn 4 1 2 40, Kafka.mkTxn 5 1 2 50]
      rfl (by omega) rfl (by omega) (by decide)).2.2.2

/-- C3: the client upsert is idempotent: after processing any event with a
present client identifier exactly one `Client` row carries the extracted
`(duid, interface_id, remote_id)` tuple, the tuple-uniqueness invariant is
preserved, and processing any further event extracting the same tuple leaves
the clients table entirely unchanged — no second row is created and no
identity field of the existing row is overwritten. -/
theorem C3_client_upsert_idempotent (cfg : Kafka.RetentionCfg) (m : Kafka.KafkaMsg)
    (st : Kafka.Store) (info : Kafka.TransactionInfo)
    (hinfo : Kafka.get_transaction_info m = .ok info)
    (hnodup : (st.clients.map Kafka.clientKey).Nodup) :
    ∃ st1, Kafka.process_message cfg m st = .ok st1 ∧
      (∃ c, st1.clients.filter
          (Kafka.clientTuple info.duid info.interface_id info.remote_id) = [c] ∧
        Kafka.clientKey c = (info.duid, info.interface_id, info.remote_id)) ∧
      (st1.clients.map Kafka.clientKey).Nodup ∧
      (∀ cfg2 m2 info2 st2, Kafka.get_transaction_info m2 = .ok info2 →
          info2.duid = info.duid → info2.interface_id = info.interface_id →
          info2.remote_id = info.remote_id →
          Kafka.process_message cfg2 m2 st1 = .ok st2 → st2.clients = st1.clients) := by
  obtain ⟨im, him⟩ := Kafka.get_transaction_info_message_in m info hinfo
  refine ⟨Kafka.writeStep cfg m im info st,
    Kafka.process_message_eq cfg m st im info him hinfo, ?_⟩
  have hcl := Kafka.writeStep_clients cfg m im info st
  have hgc := Kafka.gocs_clients m.server_name st
  have main : ∃ c, (Kafka.writeStep cfg m im info st).clients.filter
        (Kafka.clientTuple info.duid info.interface_id info.remote_id) = [c] ∧
      Kafka.clientKey c = (info.duid, info.interface_id, info.remote_id) ∧
      ((Kafka.writeStep cfg m im info st).clients.map Kafka.clientKey).Nodup ∧
      c ∈ (Kafka.writeStep cfg m im info st).clients := by
    cases hf : st.clients.find?
        (Kafka.clientTuple info.duid info.interface_id info.remote_id) with
    | some c0 =>
        have hf2 : (Kafka.get_or_create_server m.server_name st).2.clients.find?
            (Kafka.clientTuple info.duid info.interface_id info.remote_id) = some c0 := by
          rw [hgc]; exact hf
        have hst1 : (Kafka.writeStep cfg m im info st).clients = st.clients := by
          rw [hcl, Kafka.gocc_of_found _ _ _ _ c0 hf2, hgc]
        have hc0mem : c0 ∈ st.clients := List.mem_of_find?_eq_some hf
        have hc0t := List.find?_some hf
        have hkey := (Kafka.clientTuple_iff info.duid info.interface_id info.remote_id c0).mp hc0t
        refine ⟨c0, ?_, hkey, ?_, ?_⟩
        · rw [hst1]
          exact Kafka.filter_key_singleton Kafka.clientKey _ _
            (Kafka.clientTuple_iff info.duid info.interface_id info.remote_id)
            st.clients hnodup c0 hc0mem hkey
        · rw [hst1]; exact hnodup
        · rw [hst1]; exact hc0mem
    | none =>
        have hf2 : (Kafka.get_or_create_server m.server_name st).2.clients.find?
            (Kafka.clientTuple info.duid info.interface_id info.remote_id) = none := by
          rw [hgc]; exact hf
        have hst1 : (Kafka.writeStep cfg m im info st).clients =
            st.clients ++ [(⟨(Kafka.get_or_create_server m.server_name st).2.nextPk,
              info.duid, info.interface_id, info.remote_id⟩ : Kafka.Client)] := by
          rw [hcl, Kafka.gocc_of_none _ _ _ _ hf2]
          simp [hgc]
        have hkey : Kafka.clientKey
            (⟨(Kafka.get_or_create_server m.server_name st).2.nextPk,
              info.duid, info.interface_id, info.remote_id⟩ : Kafka.Client) =
            (info.duid, info.interface_id, info.remote_id) := rfl
        have hnotin : (info.duid, info.interface_id, info.remote_id) ∉
            st.clients.map Kafka.clientKey := by
          intro hmem
          obtain ⟨a, ha, hka⟩ := List.mem_map.mp hmem
          have hat : Kafka.clientTuple info.duid info.interface_id info.remote_id a = true :=
            (Kafka.clientTuple_iff info.duid info.interface_id info.remote_id a).mpr hka
          exact (List.find?_eq_none.mp hf a ha) hat
        have hnodup1 : ((st.clients ++
            [(⟨(Kafka.get_or_create_server m.server_name st).2.nextPk,
              info.duid, info.interface_id, info.remote_id⟩ : Kafka.Client)]).map
                Kafka.clientKey).Nodup := by
          rw [List.map_append, List.nodup_append]
          refine ⟨hnodup, List.nodup_singleton _, ?_⟩
          intro x hx hx2
          simp only [List.map_cons, List.map_nil, List.mem_singleton] at hx2
          rw [hx2, hkey] at hx
          exact hnotin hx
        refine ⟨(⟨(Kafka.get_or_create_server m.server_name st).2.nextPk,
          info.duid, info.interface_id, info.remote_id⟩ : Kafka.Client), ?_, hkey, ?_, ?_⟩
        · rw [hst1]
          exact Kafka.filter_key_singleton Kafka.clientKey _ _
            (Kafka.clientTuple_iff info.duid info.interface_id info.remote_id)
            _ hnodup1 _ (List.mem_append.mpr (.inr (by simp))) hkey
        · rw [hst1]; exact hnodup1
        · rw [hst1]; exact List.mem_append.mpr (.inr (by simp))
  obtain ⟨c, hfilter, hkeyc, hnodup1, hcmem⟩ := main
  refine ⟨⟨c, hfilter, hkeyc⟩, hnodup1, ?_⟩
  intro cfg2 m2 info2 st2 hinfo2 hd2 hi2 hr2 hp2
  obtain ⟨im2, him2⟩ := Kafka.get_transaction_info_message_in m2 info2 hinfo2
  rw [Kafka.process_message_eq cfg2 m2 _ im2 info2 him2 hinfo2] at hp2
  have hst2 : st2 = Kafka.writeStep cfg2 m2 im2 info2
      (Kafka.writeStep cfg m im info st) := by
    injection hp2 with h
    exact h.symm
  rw [hst2]
  apply Kafka.writeStep_clients_of_found cfg2 m2 im2 info2 _ c hcmem
  rw [hd2, hi2, hr2]
  exact (Kafka.clientTuple_iff info.duid info.interface_id info.remote_id c).mpr hkeyc

/-- Witness for C3 on the empty store at a concrete message. -/
theorem C3_witness :
    ∃ st1, Kafka.process_message ⟨some 20, some 604800⟩ Kafka.sampleMsg
        ⟨[], [], [], 0⟩ = .ok st1 ∧
      ∃ c, st1.clients.filter (Kafka.clientTuple "0x0001" "eth0" "") = [c] ∧
        Kafka.clientKey c = ("0x0001", "eth0", "") := by
  obtain ⟨st1, hok, ⟨c, hc, hkey⟩, -, -⟩ :=
    C3_client_upsert_idempotent ⟨some 20, some 604800⟩ Kafka.sampleMsg ⟨[], [], [], 0⟩
      { duid := "0x0001", interface_id := "eth0", remote_id := "",
        link_local := "fe80::1", request_type := "Solicit",
        response_type := some "AdvertiseMessage" }
      (by show Except.ok _ = _; exact congrArg Except.ok (by decide)) (by decide)
  exact ⟨st1, hok, c, hc, hkey⟩

/-- C4: every `pre`-style message (inbound message only) followed by a
`post`-style message (inbound and outbound) sharing the identity key
`(client, server, request timestamp)` leaves exactly one `Transaction` row
for that key — updated in place with the same primary key rather than
inserted as a second row — with both the request fields and the response
fields populated. -/
theorem C4_pre_post_single_row
    (cfg : Kafka.RetentionCfg) (m1 m2 : Kafka.KafkaMsg)
    (im1 im2 : Kafka.InMsg) (om : Kafka.OutMsg) (bs : List Byte) (st : Kafka.Store)
    (him1 : m1.message_in = some im1) (hduid1 : im1.duid = some bs)
    (hout1 : m1.message_out = none)
    (him2 : m2.message_in = some im2)
    (hdd : im2.duid = im1.duid) (hii : im2.interfaceId = im1.interfaceId)
    (hrr : im2.remoteId = im1.remoteId)
    (hsrv : m2.server_name = m1.server_name)
    (hts2 : m2.timestamp_in = m1.timestamp_in)
    (hout2 : m2.message_out = some om) (hcs : om.isClientServer = true)
    (htx : st.transactions = [])
    (hage : ∀ dd, cfg.maxTransactionAge = some dd → 0 ≤ dd) :
    ∃ st1 st2 row1 row2,
      Kafka.process_message cfg m1 st = .ok st1 ∧
      Kafka.process_message cfg m2 st1 = .ok st2 ∧
      st1.transactions = [row1] ∧
      st2.transactions = [row2] ∧
      row2.pk = row1.pk ∧ row2.client = row1.client ∧ row2.server = row1.server ∧
      row2.request_ts = m1.timestamp_in ∧
      row2.request_type = some (stripMessageSuffix im2.className) ∧
      row2.request = im2.json ∧
      row2.request_ll = im2.peerAddress ∧
      row2.response_type = some om.className ∧
      row2.response = om.json ∧
      row2.response_ts = m2.timestamp_out := by
  have hinfo1 : Kafka.get_transaction_info m1 = .ok
      { duid := duidRepr bs, interface_id := renderInterfaceId im1.interfaceId,
        remote_id := renderRemoteId im1.remoteId, link_local := im1.peerAddress,
        request_type := stripMessageSuffix im1.className, response_type := none } := by
    simp [Kafka.get_transaction_info, him1, hduid1, hout1]
  have hinfo2 : Kafka.get_transaction_info m2 = .ok
      { duid := duidRepr bs, interface_id := renderInterfaceId im1.interfaceId,
        remote_id := renderRemoteId im1.remoteId, link_local := im2.peerAddress,
        request_type := stripMessageSuffix im2.className,
        response_type := some om.className } := by
    simp [Kafka.get_transaction_info, him2, hdd, hduid1, hii, hrr, hout2, hcs]
  obtain ⟨row1, hrow1tx, hrow1c, hrow1s, hrow1ts, -, -, -, -, -, -⟩ :=
    Kafka.writeStep_on_empty cfg m1 im1
      { duid := duidRepr bs, interface_id := renderInterfaceId im1.interfaceId,
        remote_id := renderRemoteId im1.remoteId, link_local := im1.peerAddress,
        request_type := stripMessageSuffix im1.className, response_type := none }
      st htx hage
  obtain ⟨sv, hsvfind, hsvpk⟩ := Kafka.gocs_servers_find m1.server_name st
  obtain ⟨cl, hclfind, hclpk⟩ := Kafka.gocc_idem_pk (duidRepr bs)
    (renderInterfaceId im1.interfaceId) (renderRemoteId im1.remoteId)
    (Kafka.get_or_create_server m1.server_name st).2
  have hgocs2 : Kafka.get_or_create_server m2.server_name
      (Kafka.writeStep cfg m1 im1
        { duid := duidRepr bs, interface_id := renderInterfaceId im1.interfaceId,
          remote_id := renderRemoteId im1.remoteId, link_local := im1.peerAddress,
          request_type := stripMessageSuffix im1.className, response_type := none } st) =
      (sv.pk, Kafka.writeStep cfg m1 im1
        { duid := duidRepr bs, interface_id := renderInterfaceId im1.interfaceId,
          remote_id := renderRemoteId im1.remoteId, link_local := im1.peerAddress,
          request_type := stripMessageSuffix im1.className, response_type := none } st) := by
    apply Kafka.gocs_of_found
    rw [hsrv, Kafka.writeStep_servers]
    exact hsvfind
  have hgocs2b : (Kafka.get_or_create_server m2.server_name
      (Kafka.writeStep cfg m1 im1
        { duid := duidRepr bs, interface_id := renderInterfaceId im1.interfaceId,
          remote_id := renderRemoteId im1.remoteId, link_local := im1.peerAddress,
          request_type := stripMessageSuffix im1.className, response_type := none } st)).2 =
      Kafka.writeStep cfg m1 im1
        { duid := duidRepr bs, interface_id := renderInterfaceId im1.interfaceId,
          remote_id := renderRemoteId im1.remoteId, link_local := im1.peerAddress,
          request_type := stripMessageSuffix im1.className, response_type := none } st :=
    congrArg Prod.snd hgocs2
  have hgocc2 : Kafka.get_or_create_client (duidRepr bs)
      (renderInterfaceId im1.interfaceId) (renderRemoteId im1.remoteId)
      (Kafka.writeStep cfg m1 im1
        { duid := duidRepr bs, interface_id := renderInterfaceId im1.interfaceId,
          remote_id := renderRemoteId im1.remoteId, link_local := im1.peerAddress,
          request_type := stripMessageSuffix im1.className, response_type := none } st) =
      (cl.pk, Kafka.writeStep cfg m1 im1
        { duid := duidRepr bs, interface_id := renderInterfaceId im1.interfaceId,
          remote_id := renderRemoteId im1.remoteId, link_local := im1.peerAddress,
          request_type := stripMessageSuffix im1.className, response_type := none } st) := by
    apply Kafka.gocc_of_found
    rw [Kafka.writeStep_clients]
    exact hclfind
  have hstep2 := Kafka.writeStep_on_singleton cfg m2 im2
    { duid := duidRepr bs, interface_id := renderInterfaceId im1.interfaceId,
      remote_id := renderRemoteId im1.remoteId, link_local := im2.peerAddress,
      request_type := stripMessageSuffix im2.className,
      response_type := some om.className }
    (Kafka.writeStep cfg m1 im1
      { duid := duidRepr bs, interface_id := renderInterfaceId im1.interfaceId,
        remote_id := renderRemoteId im1.remoteId, link_local := im1.peerAddress,
        request_type := stripMessageSuffix im1.className, response_type := none } st)
    row1 hrow1tx
    (by rw [hgocs2b, hgocc2]
        exact hrow1c.trans hclpk.symm)
    (by rw [hgocs2]
        exact hrow1s.trans hsvpk.symm)
    (by rw [hts2]
        exact hrow1ts)
    hage
  refine ⟨_, _, row1,
    Kafka.applyDefaults
      { request_type := stripMessageSuffix im2.className, request := im2.json,
        request_ll := im2.peerAddress, response_type := some om.className,
        response_ts := m2.timestamp_out,
        response := match m2.message_out with | some o => o.json | none => "" }
      row1,
    Kafka.process_message_eq cfg m1 st im1 _ him1 hinfo1,
    Kafka.process_message_eq cfg m2 _ im2 _ him2 hinfo2,
    hrow1tx, hstep2, rfl, rfl, rfl, hrow1ts, rfl, rfl, rfl, rfl, ?_, rfl⟩
  show (match m2.message_out with | some o => o.json | none => "") = om.json
  rw [hout2]

/-- Witness for C4 at a concrete pre/post message pair over the empty store. -/
theorem C4_witness :
    ∃ st1 st2 row1 row2,
      Kafka.process_message ⟨some 20, some 604800⟩ Kafka.samplePreMsg
        ⟨[], [], [], 0⟩ = .ok st1 ∧
      Kafka.process_message ⟨some 20, some 604800⟩ Kafka.sampleMsg st1 = .ok st2 ∧
      st1.transactions = [row1] ∧ st2.transactions = [row2] ∧
      row2.pk = row1.pk ∧
      row2.request_type = some "Solicit" ∧
      row2.response_type = some "AdvertiseMessage" ∧
      row2.response = "outjson" := by
  obtain ⟨st1, st2, row1, row2, h1, h2, h3, h4, h5, -, -, -, h9, -, -, h12, h13, -⟩ :=
    C4_pre_post_single_row ⟨some 20, some 604800⟩ Kafka.samplePreMsg Kafka.sampleMsg
      { duid := some [0, 1], interfaceId := some [101, 116, 104, 48],
        remoteId := none, peerAddress := "fe80::1",
        className := "SolicitMessage", json := "injson" }
      { duid := some [0, 1], interfaceId := some [101, 116, 104, 48],
        remoteId := none, peerAddress := "fe80::1",
        className := "SolicitMessage", json := "injson" }
      { isClientServer := true, className := "AdvertiseMessage", json := "outjson" }
      [0, 1] ⟨[], [], [], 0⟩
      rfl rfl rfl rfl rfl rfl rfl rfl rfl rfl rfl rfl
      (by intro dd h; simp at h; omega)
  exact ⟨st1, st2, row1, row2, h1, h2, h3, h4, h5, h9.trans (by decide), h12, h13⟩

/-- Witness for C9's amended theorem at concrete wrong-typed truthy values. -/
theorem C9_witness :
    loadMaxTransactions (some (PyVal.str "x")) = ConfigOutcome.improperlyConfigured ∧
    loadMaxTransactionAge (some (PyVal.int 5)) = ConfigOutcome.improperlyConfigured :=
  ⟨(C9_defaults_apply (PyVal.str "x") (PyVal.int 5)
      (by decide) (by decide) (by decide) (by decide)).2.2.1,
   (C9_defaults_apply (PyVal.str "x") (PyVal.int 5)
      (by decide) (by decide) (by decide) (by decide)).2.2.2.1⟩

end LookingGlass
